import Mathlib

/-!
Shallow embedding of the approval-workflow scripts of the Agentic_AI repository
(Google-ADK instructional scripts).  Python dictionaries returned by tools are
modelled as association lists of string keys to tagged values; ADK event objects
are modelled as structures; the external runtime pieces (event emission for
confirmation requests) are modelled from the specification's contract for the
Agent Execution Service.  Definitions come first, theorems afterwards.
-/

namespace AgenticAI

/-- A Python float literal of the repo's lookup tables, kept as its decimal
digits: the value mantissa × 10^(-exp10).  The scripts only store and return
these numbers, never compute with them, so the exact-decimal reading is
faithful. -/
structure PyFloat where
  mantissa : Int
  exp10 : Nat
deriving DecidableEq, Repr

/-- A Python value as it appears in the tool-result dictionaries of the repo:
strings, ints, float literals and booleans. -/
inductive PyVal where
  | str (s : String)
  | int (n : Int)
  | float (f : PyFloat)
  | bool (b : Bool)
deriving DecidableEq, Repr

/-- Python str.lower() over the character list (all keys in the repo's tables
are ASCII, where Char.toLower agrees with Python). -/
def str_lower (s : String) : String :=
  ⟨s.data.map Char.toLower⟩

/-- A Python dict with string keys, in insertion order. -/
abbrev PyDict := List (String × PyVal)

/-- ToolConfirmation as exposed by ADK's ToolContext: carries the boolean
confirmed flag the human decision produced. -/
structure ToolConfirmation where
  confirmed : Bool
deriving DecidableEq, Repr

/-- One request_confirmation call made by a gated tool: the hint string and the
payload dict, exactly the two arguments of ToolContext.request_confirmation. -/
structure ConfirmationRequest where
  hint : String
  payload : PyDict
deriving DecidableEq, Repr

-- ---------------------------------------------------------------------------
-- The gated shipping tool (src/Day2/Agent_Tools_2(MCP)/script.py, lines 128-176)
-- ---------------------------------------------------------------------------

def LARGE_ORDER_THRESHOLD : Int := 5

/-- place_shipping_order from src/Day2/Agent_Tools_2(MCP)/script.py.
The ambient tool_context is made explicit: its tool_confirmation field is the
Option argument, and the request_confirmation side effect is returned as the
list of requests issued during the call (empty or a singleton). -/
def place_shipping_order (num_containers : Int) (destination : String)
    (tool_confirmation : Option ToolConfirmation) :
    PyDict × List ConfirmationRequest :=
  if num_containers ≤ LARGE_ORDER_THRESHOLD then
    ([("status", PyVal.str "approved"),
      ("order_id", PyVal.str ("ORD-" ++ toString num_containers ++ "-AUTO")),
      ("message", PyVal.str ("Order auto-approved: " ++ toString num_containers
          ++ " containers to " ++ destination))], [])
  else
    match tool_confirmation with
    | none =>
        ([("status", PyVal.str "pending"),
          ("message", PyVal.str ("Order for " ++ toString num_containers
              ++ " containers requires approval"))],
         [{ hint := "Large order: " ++ toString num_containers
              ++ " containers to " ++ destination ++ ". Approve?",
            payload := [("num_containers", PyVal.int num_containers),
                        ("destination", PyVal.str destination)] }])
    | some conf =>
        if conf.confirmed then
          ([("status", PyVal.str "approved"),
            ("order_id", PyVal.str ("ORD-" ++ toString num_containers ++ "-HUMAN")),
            ("message", PyVal.str ("Order approved: " ++ toString num_containers
                ++ " containers to " ++ destination))], [])
        else
          ([("status", PyVal.str "rejected"),
            ("message", PyVal.str ("Order rejected: " ++ toString num_containers
                ++ " containers to " ++ destination))], [])

end AgenticAI

namespace AgenticAI.ImageAuto

/-- validate_image_batch from src/Day2/Exercise/image_generation_(Auto-Approval).py,
lines 69-106, same explicit-confirmation convention as place_shipping_order. -/
def validate_image_batch (prompt : String) (count : Int)
    (tool_confirmation : Option ToolConfirmation) :
    PyDict × List ConfirmationRequest :=
  if count ≤ 1 then
    ([("status", PyVal.str "APPROVED"),
      ("message", PyVal.str "Single image request auto-approved. Proceed to generate.")], [])
  else
    match tool_confirmation with
    | none =>
        ([("status", PyVal.str "PENDING"),
          ("message", PyVal.str "Approval required for bulk generation.")],
         [{ hint := "Bulk Generation Request: " ++ toString count ++ " images for '"
              ++ prompt ++ "'. Approve cost?",
            payload := [("count", PyVal.int count), ("prompt", PyVal.str prompt)] }])
    | some conf =>
        if conf.confirmed then
          ([("status", PyVal.str "APPROVED"),
            ("message", PyVal.str ("Bulk request for " ++ toString count
                ++ " images APPROVED by human admin."))], [])
        else
          ([("status", PyVal.str "DENIED"),
            ("message", PyVal.str "Bulk request rejected. Do not generate images.")], [])

end AgenticAI.ImageAuto

namespace AgenticAI.ImageHuman

/-- validate_image_batch from src/Day2/Exercise/image_generation_(Human_Approval).py,
lines 62-85. -/
def validate_image_batch (prompt : String) (count : Int)
    (tool_confirmation : Option ToolConfirmation) :
    PyDict × List ConfirmationRequest :=
  if count ≤ 1 then
    ([("status", PyVal.str "APPROVED"),
      ("message", PyVal.str "Single image auto-approved.")], [])
  else
    match tool_confirmation with
    | none =>
        ([("status", PyVal.str "PENDING"),
          ("message", PyVal.str "Waiting for human approval...")],
         [{ hint := "Approve bulk generation of " ++ toString count ++ " images?",
            payload := [("count", PyVal.int count), ("prompt", PyVal.str prompt)] }])
    | some conf =>
        if conf.confirmed then
          ([("status", PyVal.str "APPROVED"),
            ("message", PyVal.str "Bulk request APPROVED by admin.")], [])
        else
          ([("status", PyVal.str "DENIED"),
            ("message", PyVal.str "Bulk request DENIED by admin.")], [])

end AgenticAI.ImageHuman

namespace AgenticAI

-- ---------------------------------------------------------------------------
-- ADK execution events (the genai/ADK object shapes the scripts inspect)
-- ---------------------------------------------------------------------------

/-- A genai FunctionCall part payload: the called tool's name and call id. -/
structure FunctionCall where
  name : String
  id : String
deriving DecidableEq, Repr

/-- A genai FunctionResponse: the id of the call being answered, the tool name,
and the response dict. -/
structure FunctionResponse where
  id : String
  name : String
  response : PyDict
deriving DecidableEq, Repr

/-- A genai Part: at most one of a text payload, an emitted function call, or a
function response (the fields the scripts inspect). -/
structure Part where
  text : Option String
  function_call : Option FunctionCall
  function_response : Option FunctionResponse
deriving DecidableEq, Repr

/-- A genai Content: a role and a list of parts. -/
structure Content where
  role : String
  parts : List Part
deriving DecidableEq, Repr

/-- An ADK execution event: optional content plus the invocation identifier of
the run that produced it. -/
structure Event where
  content : Option Content
  invocation_id : String
deriving DecidableEq, Repr

/-- The dict check_for_approval returns on success: keys approval_id (the
function-call id of the adk_request_confirmation call) and invocation_id. -/
structure ApprovalInfo where
  approval_id : String
  invocation_id : String
deriving DecidableEq, Repr

/-- Inner loop of check_for_approval: Python's truthiness test
`part.function_call and part.function_call.name == "adk_request_confirmation"`
applied to each part in order, returning the first matching function call. -/
def scan_parts : List Part → Option FunctionCall
  | [] => none
  | p :: rest =>
    match p.function_call with
    | some fc =>
        if fc.name == "adk_request_confirmation" then some fc else scan_parts rest
    | none => scan_parts rest

/-- check_for_approval from src/Day2/Agent_Tools_2(MCP)/script.py, lines 180-191.
The guard `if event.content and event.content.parts` is the content being
present with a non-empty parts list. -/
def check_for_approval : List Event → Option ApprovalInfo
  | [] => none
  | e :: rest =>
    match e.content with
    | none => check_for_approval rest
    | some c =>
      if c.parts.isEmpty then check_for_approval rest
      else
        match scan_parts c.parts with
        | some fc => some { approval_id := fc.id, invocation_id := e.invocation_id }
        | none => check_for_approval rest

/-- Whether a part carries a function call named adk_request_confirmation. -/
def part_is_confirmation (p : Part) : Bool :=
  match p.function_call with
  | some fc => fc.name == "adk_request_confirmation"
  | none => false

/-- Whether an event contains a confirmation-request function call. -/
def event_has_confirmation (e : Event) : Bool :=
  match e.content with
  | some c => c.parts.any part_is_confirmation
  | none => false

/-- Formalisation of the spec's words for scanForPause: the first matching part
of a part list. -/
def first_confirmation_call (ps : List Part) : Option FunctionCall :=
  (ps.find? part_is_confirmation).bind Part.function_call

/-- Formalisation of the spec's words for scanForPause: return the identifiers
taken from the first event, in arrival order, whose emitted tool-invocation
request names adk_request_confirmation; nothing when no such event exists. -/
def scanForPause (events : List Event) : Option ApprovalInfo :=
  (events.find? event_has_confirmation).bind fun e =>
    match e.content with
    | some c =>
        (first_confirmation_call c.parts).map fun fc =>
          { approval_id := fc.id, invocation_id := e.invocation_id }
    | none => none

-- ---------------------------------------------------------------------------
-- The runtime's representation of a pause (modelled from the spec)
-- ---------------------------------------------------------------------------

/-- Modelled from the spec: the external ADK runtime represents each
request_confirmation call of a gated tool as an ordinary tool-invocation
request event whose function call bears the reserved name
adk_request_confirmation, carrying the run's invocation identifier; it does not
reorder or duplicate it within one run. -/
def confirmation_event (invId fcId : String) (_req : ConfirmationRequest) : Event :=
  ⟨some ⟨"model", [⟨none, some ⟨"adk_request_confirmation", fcId⟩, none⟩]⟩, invId⟩

/-- Modelled from the spec: the events the runtime emits for the confirmation
requests a single gated-tool call issued. -/
def tool_request_events (invId fcId : String) (reqs : List ConfirmationRequest) :
    List Event :=
  reqs.map (confirmation_event invId fcId)

-- ---------------------------------------------------------------------------
-- The workflow controller (run_shipping_workflow and its helpers)
-- ---------------------------------------------------------------------------

/-- create_approval_response from src/Day2/Agent_Tools_2(MCP)/script.py, lines
193-202: a user-role content holding one FunctionResponse keyed by the
approval id, named adk_request_confirmation, whose response dict is the single
confirmed flag. -/
def create_approval_response (approval_info : ApprovalInfo) (approved : Bool) :
    Content :=
  ⟨"user",
   [⟨none, none,
     some ⟨approval_info.approval_id, "adk_request_confirmation",
           [("confirmed", PyVal.bool approved)]⟩⟩]⟩

/-- print_agent_text from src/Day2/Agent_Tools_2(MCP)/script.py, lines 204-210:
the texts it prints, in order; Python truthiness of part.text skips empty
strings. -/
def agent_texts (events : List Event) : List String :=
  events.foldr (fun e acc =>
    match e.content with
    | some c =>
        (c.parts.filterMap fun p =>
          match p.text with
          | some t => if t == "" then none else some t
          | none => none) ++ acc
    | none => acc) []

/-- One runner.run_async invocation as the controller issues it: the keyword
arguments of the call. -/
structure RunnerCall where
  user_id : String
  session_id : String
  new_message : Content
  invocation_id : Option String
deriving DecidableEq, Repr

/-- Python string slicing s[:n] over the character list (uuid hex strings are
ASCII, where code points and characters coincide). -/
def str_take (s : String) (n : Nat) : String :=
  ⟨s.data.take n⟩

/-- The session id built at the start of run_shipping_workflow: the literal
order marker followed by the first 8 hex characters of a fresh uuid4
(uuid.uuid4().hex[:8]). -/
def make_session_id (uuid_hex : String) : String :=
  "order_" ++ str_take uuid_hex 8

/-- The message content of the initial run: the user query as a text part. -/
def query_content (query : String) : Content :=
  ⟨"user", [⟨some query, none, none⟩]⟩

/-- The initial runner.run_async call of run_shipping_workflow. -/
def initial_call (session_id query : String) : RunnerCall :=
  { user_id := "test_user", session_id := session_id,
    new_message := query_content query, invocation_id := none }

/-- The resume runner.run_async call of run_shipping_workflow: the decision
message as the new input plus the invocation identifier of the pause. -/
def resume_call (session_id : String) (approval_info : ApprovalInfo)
    (approved : Bool) : RunnerCall :=
  { user_id := "test_user", session_id := session_id,
    new_message := create_approval_response approval_info approved,
    invocation_id := some approval_info.invocation_id }

/-- How one workflow run ended: the no-pause branch printing the agent texts,
or the pause branch that resumed with the human decision. -/
inductive Outcome where
  | completedNoPause (texts : List String)
  | resumedAfterPause (decision : Bool) (texts : List String)
deriving DecidableEq, Repr

/-- The observable record of one run_shipping_workflow call: the session it
created, the runner calls it issued in order, and how it ended. -/
structure WorkflowTrace where
  session_id : String
  calls : List RunnerCall
  outcome : Outcome
deriving DecidableEq, Repr

/-- run_shipping_workflow from src/Day2/Agent_Tools_2(MCP)/script.py, lines
214-265, with the external runner abstracted as a function from a call to its
event sequence and the fresh uuid4 hex string passed explicitly. -/
def run_shipping_workflow (runner : RunnerCall → List Event)
    (uuid_hex query : String) (auto_approve_decision : Bool) : WorkflowTrace :=
  let session_id := make_session_id uuid_hex
  let c1 := initial_call session_id query
  let events := runner c1
  match check_for_approval events with
  | some approval_info =>
      let c2 := resume_call session_id approval_info auto_approve_decision
      let resumed_events := runner c2
      { session_id := session_id, calls := [c1, c2],
        outcome := Outcome.resumedAfterPause auto_approve_decision
          (agent_texts resumed_events) }
  | none =>
      { session_id := session_id, calls := [c1],
        outcome := Outcome.completedNoPause (agent_texts events) }

/-- Whether the run took the pause branch (PAUSED was entered before resuming). -/
def entered_pause (tr : WorkflowTrace) : Bool :=
  match tr.outcome with
  | Outcome.resumedAfterPause _ _ => true
  | Outcome.completedNoPause _ => false

end AgenticAI

namespace AgenticAI.ImageAuto

/-- check_for_pause from src/Day2/Exercise/image_generation_(Auto-Approval).py,
lines 111-118: identical logic to check_for_approval, returning keys id and
invocation_id. -/
def check_for_pause : List Event → Option ApprovalInfo
  | [] => none
  | e :: rest =>
    match e.content with
    | none => check_for_pause rest
    | some c =>
      if c.parts.isEmpty then check_for_pause rest
      else
        match scan_parts c.parts with
        | some fc => some { approval_id := fc.id, invocation_id := e.invocation_id }
        | none => check_for_pause rest

end AgenticAI.ImageAuto

namespace AgenticAI.ImageHuman

/-- check_for_pause from src/Day2/Exercise/image_generation_(Human_Approval).py,
lines 89-96: textually the same scan as the Auto-Approval file's. -/
def check_for_pause : List Event → Option ApprovalInfo
  | [] => none
  | e :: rest =>
    match e.content with
    | none => check_for_pause rest
    | some c =>
      if c.parts.isEmpty then check_for_pause rest
      else
        match scan_parts c.parts with
        | some fc => some { approval_id := fc.id, invocation_id := e.invocation_id }
        | none => check_for_pause rest

end AgenticAI.ImageHuman

namespace AgenticAI.AgentTools

-- ---------------------------------------------------------------------------
-- The lookup tools of src/Day2/Agent_Tools/script.py
-- ---------------------------------------------------------------------------

/-- The fee_database dict of get_fee_for_payment_method (lines 76-80); the
PyFloat pairs are the decimal literals 0.02, 0.035 and 0.01. -/
def fee_database : List (String × PyFloat) :=
  [("platinum credit card", ⟨2, 2⟩),
   ("gold debit card", ⟨35, 3⟩),
   ("bank transfer", ⟨1, 2⟩)]

/-- get_fee_for_payment_method from src/Day2/Agent_Tools/script.py, lines
60-89: lowercase the method, look it up, and return a structured success or
error dict; it never raises. -/
def get_fee_for_payment_method (method : String) : PyDict :=
  match fee_database.lookup (str_lower method) with
  | some fee => [("status", PyVal.str "success"), ("fee_percentage", PyVal.float fee)]
  | none =>
      [("status", PyVal.str "error"),
       ("error_message", PyVal.str ("Payment method '" ++ method ++ "' not found"))]

/-- The nested rate_database dict of get_exchange_rate (lines 107-113); the
PyFloat pairs are the decimal literals 0.93, 157.50 and 83.58. -/
def rate_database : List (String × List (String × PyFloat)) :=
  [("usd", [("eur", ⟨93, 2⟩), ("jpy", ⟨15750, 2⟩), ("inr", ⟨8358, 2⟩)])]

/-- get_exchange_rate from src/Day2/Agent_Tools/script.py, lines 92-127:
rate_database.get(base, empty).get(target) after lowercasing, returning a
structured success or error dict; it never raises. -/
def get_exchange_rate (base_currency target_currency : String) : PyDict :=
  match ((rate_database.lookup (str_lower base_currency)).getD []).lookup
      (str_lower target_currency) with
  | some rate => [("status", PyVal.str "success"), ("rate", PyVal.float rate)]
  | none =>
      [("status", PyVal.str "error"),
       ("error_message", PyVal.str ("Unsupported currency pair: "
           ++ base_currency ++ "/" ++ target_currency))]

end AgenticAI.AgentTools

namespace AgenticAI

-- ---------------------------------------------------------------------------
-- Environment setup (per script)
-- ---------------------------------------------------------------------------

/-- The process environment: variable-name/value pairs, os.getenv being lookup. -/
abbrev Env := List (String × String)

/-- What a setup_environment call does: complete normally, print a warning and
continue, or raise a ValueError with the given message (fatal). -/
inductive SetupOutcome where
  | ok
  | warned
  | raised (msg : String)
deriving DecidableEq, Repr

/-- The ValueError message of the Day1 scripts and Agent_Tools (identical text). -/
def missing_key_message_long : String :=
  "🔑 GOOGLE_API_KEY not found in environment variables.\nPlease create a .env file with: GOOGLE_API_KEY=your_api_key_here"

/-- The ValueError message of the MCP script. -/
def missing_key_message_mcp : String :=
  "🔑 GOOGLE_API_KEY not found. Check your .env file."

/-- Python truthiness of os.getenv: absent or empty counts as missing. -/
def env_key_missing (env : Env) : Bool :=
  match env.lookup "GOOGLE_API_KEY" with
  | none => true
  | some k => k == ""

end AgenticAI

namespace AgenticAI.Day1Agent

/-- setup_environment from src/Day1/agent/script.py, lines 16-28: raises a
ValueError when the key is missing (Python falsy), completes otherwise. -/
def setup_environment (env : Env) : SetupOutcome :=
  if env_key_missing env then SetupOutcome.raised missing_key_message_long
  else SetupOutcome.ok

end AgenticAI.Day1Agent

namespace AgenticAI.Day1MultiAgent

/-- setup_environment from src/Day1/multi-agent/script.py, lines 16-28: same
guard and message as the Day1 agent script. -/
def setup_environment (env : Env) : SetupOutcome :=
  if env_key_missing env then SetupOutcome.raised missing_key_message_long
  else SetupOutcome.ok

end AgenticAI.Day1MultiAgent

namespace AgenticAI.AgentTools

/-- setup_environment from src/Day2/Agent_Tools/script.py, lines 29-42. -/
def setup_environment (env : Env) : SetupOutcome :=
  if env_key_missing env then SetupOutcome.raised missing_key_message_long
  else SetupOutcome.ok

end AgenticAI.AgentTools

namespace AgenticAI.MCPScript

/-- setup_environment from src/Day2/Agent_Tools_2(MCP)/script.py, lines 40-47. -/
def setup_environment (env : Env) : SetupOutcome :=
  if env_key_missing env then SetupOutcome.raised missing_key_message_mcp
  else SetupOutcome.ok

end AgenticAI.MCPScript

namespace AgenticAI.ImageAuto

/-- setup_environment from src/Day2/Exercise/image_generation_(Auto-Approval).py,
lines 36-39: only prints a warning when the key is missing and continues. -/
def setup_environment (env : Env) : SetupOutcome :=
  if env_key_missing env then SetupOutcome.warned
  else SetupOutcome.ok

end AgenticAI.ImageAuto

namespace AgenticAI.ImageHuman

/-- setup_environment from src/Day2/Exercise/image_generation_(Human_Approval).py,
lines 32-35: only prints a warning when the key is missing and continues. -/
def setup_environment (env : Env) : SetupOutcome :=
  if env_key_missing env then SetupOutcome.warned
  else SetupOutcome.ok

end AgenticAI.ImageHuman

namespace AgenticAI

-- ---------------------------------------------------------------------------
-- Concrete data used by the witnesses
-- ---------------------------------------------------------------------------

/-- The confirmation request the shipping tool issues for 10 containers to
Rotterdam (the spec's approve scenario). -/
def demo_request : ConfirmationRequest :=
  { hint := "Large order: 10 containers to Rotterdam. Approve?",
    payload := [("num_containers", PyVal.int 10),
                ("destination", PyVal.str "Rotterdam")] }

/-- A pause event as the runtime would emit it for demo_request. -/
def demo_pause_event : Event :=
  confirmation_event "inv-1" "fc-1" demo_request

/-- A runner standing in for the external agent execution: the initial call
(no invocation id) pauses with demo_pause_event, the resume call yields no
further events. -/
def demo_runner : RunnerCall → List Event :=
  fun c => if c.invocation_id.isNone then [demo_pause_event] else []

/-- A runner whose runs produce no events at all. -/
def silent_runner : RunnerCall → List Event :=
  fun _ => []

/-- A concrete uuid4 hex draw. -/
def demo_uuid : String := "0123456789abcdef0123456789abcdef"

/-- The large-order query of the spec's approve scenario. -/
def demo_query : String := "Ship 10 containers to Rotterdam"

/-- A second uuid4 hex draw agreeing with uuid_collision_b on the first 8 hex
characters but differing afterwards. -/
def uuid_collision_a : String := "aaaaaaaa000000000000000000000000"

/-- See uuid_collision_a. -/
def uuid_collision_b : String := "aaaaaaaa111111111111111111111111"

/-- A uuid4 hex draw whose 8-character start differs from uuid_collision_a. -/
def uuid_distinct : String := "bbbbbbbb000000000000000000000000"

/-- Observation on a tool-result dict: its status key holds one of the given
strings. -/
def has_status_in (d : PyDict) (ss : List String) : Bool :=
  match d.lookup "status" with
  | some (PyVal.str s) => ss.contains s
  | _ => false

/-- Observation on a tool-result dict: it carries a string under the message
key. -/
def has_message (d : PyDict) : Bool :=
  match d.lookup "message" with
  | some (PyVal.str _) => true
  | _ => false

-- ---------------------------------------------------------------------------
-- Theorems: scan helpers
-- ---------------------------------------------------------------------------

theorem scan_parts_eq_none_iff (ps : List Part) :
    scan_parts ps = none ↔ ps.any part_is_confirmation = false := by
  induction ps with
  | nil => simp [scan_parts]
  | cons p rest ih =>
    cases hfc : p.function_call with
    | none => simp [scan_parts, hfc, part_is_confirmation, ih]
    | some fc =>
      cases hn : (fc.name == "adk_request_confirmation") with
      | true => simp [scan_parts, hfc, hn, part_is_confirmation]
      | false => simp [scan_parts, hfc, hn, part_is_confirmation, ih]

theorem scan_parts_eq_first (ps : List Part) :
    scan_parts ps = first_confirmation_call ps := by
  induction ps with
  | nil => rfl
  | cons p rest ih =>
    cases hfc : p.function_call with
    | none =>
      have hp : part_is_confirmation p = false := by simp [part_is_confirmation, hfc]
      simp [scan_parts, hfc, first_confirmation_call, List.find?_cons_of_neg, hp] at ih ⊢
      exact ih
    | some fc =>
      cases hn : (fc.name == "adk_request_confirmation") with
      | true =>
        have hp : part_is_confirmation p = true := by simp [part_is_confirmation, hfc, hn]
        simp [scan_parts, hfc, hn, first_confirmation_call, List.find?_cons_of_pos, hp]
      | false =>
        have hp : part_is_confirmation p = false := by simp [part_is_confirmation, hfc, hn]
        simp [scan_parts, hfc, hn, first_confirmation_call, List.find?_cons_of_neg, hp] at ih ⊢
        exact ih

theorem check_for_approval_eq_scanForPause (events : List Event) :
    check_for_approval events = scanForPause events := by
  induction events with
  | nil => rfl
  | cons e rest ih =>
    cases hc : e.content with
    | none =>
      have he : event_has_confirmation e = false := by simp [event_has_confirmation, hc]
      simp [check_for_approval, hc, scanForPause, List.find?_cons_of_neg, he] at ih ⊢
      exact ih
    | some c =>
      cases hany : c.parts.any part_is_confirmation with
      | false =>
        have he : event_has_confirmation e = false := by
          simp [event_has_confirmation, hc, hany]
        have hsp : scan_parts c.parts = none := (scan_parts_eq_none_iff _).mpr hany
        by_cases hemp : c.parts.isEmpty
        · simp [check_for_approval, hc, hemp, scanForPause, List.find?_cons_of_neg, he] at ih ⊢
          exact ih
        · simp [check_for_approval, hc, hemp, hsp, scanForPause,
            List.find?_cons_of_neg, he] at ih ⊢
          exact ih
      | true =>
        have he : event_has_confirmation e = true := by
          simp [event_has_confirmation, hc, hany]
        have hne : ¬ c.parts.isEmpty := by
          cases hps : c.parts with
          | nil => rw [hps] at hany; simp [List.any] at hany
          | cons q qs => simp [hps]
        have hsp : scan_parts c.parts ≠ none := by
          rw [Ne, scan_parts_eq_none_iff, hany]; simp
        obtain ⟨fc, hfc⟩ := Option.ne_none_iff_exists'.mp hsp
        simp [check_for_approval, hc, hne, hfc, scanForPause, List.find?_cons_of_pos, he,
          ← scan_parts_eq_first]

theorem check_for_approval_eq_none_iff (events : List Event) :
    check_for_approval events = none ↔
      ∀ e ∈ events, event_has_confirmation e = false := by
  induction events with
  | nil => simp [check_for_approval]
  | cons e rest ih =>
    cases hc : e.content with
    | none =>
      simp [check_for_approval, hc, ih, event_has_confirmation]
    | some c =>
      by_cases hemp : c.parts.isEmpty
      · have hnil : c.parts = [] := by simpa [List.isEmpty_iff] using hemp
        simp [check_for_approval, hc, hemp, ih, event_has_confirmation, hnil]
      · cases hsp : scan_parts c.parts with
        | some fc =>
          have hany : c.parts.any part_is_confirmation = true := by
            cases h2 : c.parts.any part_is_confirmation with
            | false =>
              have := (scan_parts_eq_none_iff c.parts).mpr h2
              rw [this] at hsp; exact absurd hsp (by simp)
            | true => rfl
          simp [check_for_approval, hc, hemp, hsp, event_has_confirmation, hany]
        | none =>
          have hany : c.parts.any part_is_confirmation = false :=
            (scan_parts_eq_none_iff c.parts).mp hsp
          simp [check_for_approval, hc, hemp, hsp, ih, event_has_confirmation, hany]

/-- Skipping confirmation-free events: the scan of an appended list starts over
at the tail once every event of the first list lacks a confirmation call. -/
theorem check_for_approval_append (es evs : List Event)
    (h : ∀ e ∈ es, event_has_confirmation e = false) :
    check_for_approval (es ++ evs) = check_for_approval evs := by
  induction es with
  | nil => rfl
  | cons e rest ih =>
    have he : event_has_confirmation e = false := h e (by simp)
    have hrest : ∀ x ∈ rest, event_has_confirmation x = false := by
      intro x hx; exact h x (by simp [hx])
    cases hc : e.content with
    | none => simp [check_for_approval, hc, ih hrest]
    | some c =>
      have hany : c.parts.any part_is_confirmation = false := by
        rw [event_has_confirmation, hc] at he; exact he
      have hsp : scan_parts c.parts = none := (scan_parts_eq_none_iff _).mpr hany
      by_cases hemp : c.parts.isEmpty
      · simp [check_for_approval, hc, hemp, ih hrest]
      · simp [check_for_approval, hc, hemp, hsp, ih hrest]

theorem confirmation_event_has_confirmation (invId fcId : String)
    (req : ConfirmationRequest) :
    event_has_confirmation (confirmation_event invId fcId req) = true := by
  simp [confirmation_event, event_has_confirmation, part_is_confirmation]

theorem auto_check_for_pause_eq (events : List Event) :
    ImageAuto.check_for_pause events = check_for_approval events := by
  induction events with
  | nil => rfl
  | cons e rest ih =>
    cases hc : e.content with
    | none => simp [ImageAuto.check_for_pause, check_for_approval, hc, ih]
    | some c =>
      by_cases hemp : c.parts.isEmpty
      · simp [ImageAuto.check_for_pause, check_for_approval, hc, hemp, ih]
      · cases hsp : scan_parts c.parts with
        | some fc => simp [ImageAuto.check_for_pause, check_for_approval, hc, hemp, hsp]
        | none => simp [ImageAuto.check_for_pause, check_for_approval, hc, hemp, hsp, ih]

theorem human_check_for_pause_eq (events : List Event) :
    ImageHuman.check_for_pause events = check_for_approval events := by
  induction events with
  | nil => rfl
  | cons e rest ih =>
    cases hc : e.content with
    | none => simp [ImageHuman.check_for_pause, check_for_approval, hc, ih]
    | some c =>
      by_cases hemp : c.parts.isEmpty
      · simp [ImageHuman.check_for_pause, check_for_approval, hc, hemp, ih]
      · cases hsp : scan_parts c.parts with
        | some fc => simp [ImageHuman.check_for_pause, check_for_approval, hc, hemp, hsp]
        | none => simp [ImageHuman.check_for_pause, check_for_approval, hc, hemp, hsp, ih]

-- ---------------------------------------------------------------------------
-- Claim theorems
-- ---------------------------------------------------------------------------

/-- C1: for every quantity at or below the approval threshold (5 containers for
the shipping tool, 1 image for the image gatekeeper), a single call to the
gated tool with no confirmation attached auto-approves: the shipping result's
status is approved with an order id suffixed AUTO, request_confirmation is
never called (the issued-request list is empty), and scanning the run's events
(the request events plus anything else confirmation-free) finds no confirmation
request. -/
theorem auto_approval_below_threshold
    (containers images : Int) (dest prompt invId fcId : String) (es : List Event)
    (hship : containers ≤ 5) (himg : images ≤ 1)
    (hes : ∀ e ∈ es, event_has_confirmation e = false) :
    (place_shipping_order containers dest none).1.lookup "status"
        = some (PyVal.str "approved") ∧
    (place_shipping_order containers dest none).1.lookup "order_id"
        = some (PyVal.str ("ORD-" ++ toString containers ++ "-AUTO")) ∧
    (place_shipping_order containers dest none).2 = [] ∧
    check_for_approval
        (es ++ tool_request_events invId fcId (place_shipping_order containers dest none).2)
      = none ∧
    (ImageAuto.validate_image_batch prompt images none).1.lookup "status"
        = some (PyVal.str "APPROVED") ∧
    (ImageAuto.validate_image_batch prompt images none).2 = [] := by
  have hship5 : containers ≤ LARGE_ORDER_THRESHOLD := hship
  refine ⟨?_, ?_, ?_, ?_, ?_, ?_⟩
  · simp [place_shipping_order, hship5, List.lookup]
  · simp [place_shipping_order, hship5, List.lookup]
  · simp [place_shipping_order, hship5]
  · have h2 : (place_shipping_order containers dest none).2 = [] := by
      simp [place_shipping_order, hship5]
    rw [h2]
    simp [tool_request_events]
    exact (check_for_approval_eq_none_iff es).mpr hes
  · simp [ImageAuto.validate_image_batch, himg, List.lookup]
  · simp [ImageAuto.validate_image_batch, himg]

theorem auto_approval_below_threshold_witness :
    (place_shipping_order 3 "Singapore" none).1.lookup "status"
        = some (PyVal.str "approved") ∧
    (place_shipping_order 3 "Singapore" none).1.lookup "order_id"
        = some (PyVal.str "ORD-3-AUTO") ∧
    (ImageAuto.validate_image_batch "a cat" 1 none).1.lookup "status"
        = some (PyVal.str "APPROVED") := by
  have h := auto_approval_below_threshold 3 1 "Singapore" "a cat" "inv-0" "fc-0" []
    (by decide) (by decide) (by intro e he; cases he)
  exact ⟨h.1, h.2.1, h.2.2.2.2.1⟩

/-- C8: an unsupported lookup key makes the fee and exchange-rate tools return
a structured error dict naming the offending input, a supported key a success
dict with the looked-up value; both functions are total (they never raise). -/
theorem lookup_tools_structured (method base target : String) :
    (∀ fee, (AgentTools.fee_database).lookup (str_lower method) = some fee →
        AgentTools.get_fee_for_payment_method method
          = [("status", PyVal.str "success"), ("fee_percentage", PyVal.float fee)]) ∧
    ((AgentTools.fee_database).lookup (str_lower method) = none →
        AgentTools.get_fee_for_payment_method method
          = [("status", PyVal.str "error"),
             ("error_message",
              PyVal.str ("Payment method '" ++ method ++ "' not found"))]) ∧
    (∀ rate, (((AgentTools.rate_database).lookup (str_lower base)).getD []).lookup
          (str_lower target) = some rate →
        AgentTools.get_exchange_rate base target
          = [("status", PyVal.str "success"), ("rate", PyVal.float rate)]) ∧
    ((((AgentTools.rate_database).lookup (str_lower base)).getD []).lookup
          (str_lower target) = none →
        AgentTools.get_exchange_rate base target
          = [("status", PyVal.str "error"),
             ("error_message",
              PyVal.str ("Unsupported currency pair: " ++ base ++ "/" ++ target))]) ∧
    has_status_in (AgentTools.get_fee_for_payment_method method)
        ["success", "error"] = true ∧
    has_status_in (AgentTools.get_exchange_rate base target)
        ["success", "error"] = true := by
  refine ⟨?_, ?_, ?_, ?_, ?_, ?_⟩
  · intro fee h; simp [AgentTools.get_fee_for_payment_method, h]
  · intro h; simp [AgentTools.get_fee_for_payment_method, h]
  · intro rate h; simp [AgentTools.get_exchange_rate, h]
  · intro h; simp [AgentTools.get_exchange_rate, h]
  · cases h : (AgentTools.fee_database).lookup (str_lower method) with
    | some fee =>
        simp only [AgentTools.get_fee_for_payment_method, h]; rfl
    | none =>
        simp only [AgentTools.get_fee_for_payment_method, h]; rfl
  · cases h : (((AgentTools.rate_database).lookup (str_lower base)).getD []).lookup
        (str_lower target) with
    | some rate =>
        simp only [AgentTools.get_exchange_rate, h]; rfl
    | none =>
        simp only [AgentTools.get_exchange_rate, h]; rfl

theorem lookup_tools_structured_witness :
    AgentTools.get_fee_for_payment_method "Platinum Credit Card"
      = [("status", PyVal.str "success"), ("fee_percentage", PyVal.float ⟨2, 2⟩)] ∧
    AgentTools.get_fee_for_payment_method "normal credit card"
      = [("status", PyVal.str "error"),
         ("error_message",
          PyVal.str "Payment method 'normal credit card' not found")] ∧
    AgentTools.get_exchange_rate "USD" "EUR"
      = [("status", PyVal.str "success"), ("rate", PyVal.float ⟨93, 2⟩)] ∧
    AgentTools.get_exchange_rate "USD" "GBP"
      = [("status", PyVal.str "error"),
         ("error_message", PyVal.str "Unsupported currency pair: USD/GBP")] := by
  refine ⟨?_, ?_, ?_, ?_⟩
  · exact (lookup_tools_structured "Platinum Credit Card" "USD" "EUR").1 ⟨2, 2⟩
      (by decide)
  · exact (lookup_tools_structured "normal credit card" "USD" "EUR").2.1 (by decide)
  · exact (lookup_tools_structured "USD" "USD" "EUR").2.2.1 ⟨93, 2⟩ (by decide)
  · exact (lookup_tools_structured "USD" "USD" "GBP").2.2.2.1 (by decide)

/-- C9 (amended): with GOOGLE_API_KEY missing (absent or empty, Python falsy),
the Day1 scripts, Agent_Tools and the MCP script raise a fatal ValueError at
startup, while the two Exercise scripts only print a warning and continue. -/
theorem missing_key_setup_outcomes (env : Env)
    (h : env_key_missing env = true) :
    Day1Agent.setup_environment env = SetupOutcome.raised missing_key_message_long ∧
    Day1MultiAgent.setup_environment env = SetupOutcome.raised missing_key_message_long ∧
    AgentTools.setup_environment env = SetupOutcome.raised missing_key_message_long ∧
    MCPScript.setup_environment env = SetupOutcome.raised missing_key_message_mcp ∧
    ImageAuto.setup_environment env = SetupOutcome.warned ∧
    ImageHuman.setup_environment env = SetupOutcome.warned := by
  simp [Day1Agent.setup_environment, Day1MultiAgent.setup_environment,
    AgentTools.setup_environment, MCPScript.setup_environment,
    ImageAuto.setup_environment, ImageHuman.setup_environment, h]

theorem missing_key_setup_outcomes_witness :
    AgentTools.setup_environment [] = SetupOutcome.raised missing_key_message_long ∧
    MCPScript.setup_environment [] = SetupOutcome.raised missing_key_message_mcp :=
  ⟨(missing_key_setup_outcomes [] rfl).2.2.1,
   (missing_key_setup_outcomes [] rfl).2.2.2.1⟩

/-- C9 counterexample: with GOOGLE_API_KEY absent from the environment, the two
Exercise scripts' setup_environment does not raise — it completes normally
after printing a warning — so the claim that every script's setup_environment
fails fatally is false. -/
theorem exercise_setup_does_not_raise :
    ImageAuto.setup_environment [] = SetupOutcome.warned ∧
    ImageHuman.setup_environment [] = SetupOutcome.warned :=
  ⟨rfl, rfl⟩

/-- C10: for every integer count, every string argument and every confirmation
state, each gated tool totally returns a dict holding a status drawn from its
fixed three-element set together with a human-readable message string. -/
theorem gated_tools_total (count : Int) (dest prompt : String)
    (conf : Option ToolConfirmation) :
    has_status_in (place_shipping_order count dest conf).1
        ["approved", "pending", "rejected"] = true ∧
    has_message (place_shipping_order count dest conf).1 = true ∧
    has_status_in (ImageAuto.validate_image_batch prompt count conf).1
        ["APPROVED", "PENDING", "DENIED"] = true ∧
    has_message (ImageAuto.validate_image_batch prompt count conf).1 = true ∧
    has_status_in (ImageHuman.validate_image_batch prompt count conf).1
        ["APPROVED", "PENDING", "DENIED"] = true ∧
    has_message (ImageHuman.validate_image_batch prompt count conf).1 = true := by
  refine ⟨?_, ?_, ?_, ?_, ?_, ?_⟩ <;>
  · by_cases h : count ≤ (5 : Int) <;>
    by_cases h1 : count ≤ (1 : Int) <;>
    rcases conf with _ | ⟨⟨c⟩⟩ <;>
    first
    | (simp [place_shipping_order, ImageAuto.validate_image_batch,
         ImageHuman.validate_image_batch, LARGE_ORDER_THRESHOLD, h, h1,
         has_status_in, has_message, List.lookup]; done)
    | (cases c <;>
        simp [place_shipping_order, ImageAuto.validate_image_batch,
          ImageHuman.validate_image_batch, LARGE_ORDER_THRESHOLD, h, h1,
          has_status_in, has_message, List.lookup])

/-- C4: the event scan is deterministic, single-pass and first-match, exactly
as the spec words scanForPause: check_for_approval agrees with the spec-side
first-event formulation, returns nothing precisely when no event carries a
confirmation request, and the Exercise scripts' check_for_pause computes the
same function. -/
theorem pause_scan_first_match (events : List Event) :
    check_for_approval events = scanForPause events ∧
    (check_for_approval events = none ↔
      ∀ e ∈ events, event_has_confirmation e = false) ∧
    ImageAuto.check_for_pause events = check_for_approval events ∧
    ImageHuman.check_for_pause events = check_for_approval events :=
  ⟨check_for_approval_eq_scanForPause events,
   check_for_approval_eq_none_iff events,
   auto_check_for_pause_eq events,
   human_check_for_pause_eq events⟩

theorem pause_scan_first_match_witness :
    check_for_approval [demo_pause_event] = scanForPause [demo_pause_event] ∧
    check_for_approval [demo_pause_event]
      = some { approval_id := "fc-1", invocation_id := "inv-1" } :=
  ⟨(pause_scan_first_match [demo_pause_event]).1, by decide⟩

/-- C2: above the threshold (5 containers; 1 image), the first, unconfirmed
gated call requests confirmation exactly once and returns a pending result;
the initial run's event sequence carries exactly one confirmation-request
event, the scan finds it, and the workflow takes the pause branch (PAUSED). -/
theorem large_order_pauses
    (count images : Int) (dest prompt uuid q : String) (d : Bool)
    (invId fcId : String) (es1 es2 : List Event)
    (runner : RunnerCall → List Event)
    (hcount : 5 < count) (himg : 1 < images)
    (h1 : ∀ e ∈ es1, event_has_confirmation e = false)
    (h2 : ∀ e ∈ es2, event_has_confirmation e = false)
    (hrun : runner (initial_call (make_session_id uuid) q)
        = es1 ++ tool_request_events invId fcId
            (place_shipping_order count dest none).2 ++ es2) :
    (place_shipping_order count dest none).1.lookup "status"
        = some (PyVal.str "pending") ∧
    (place_shipping_order count dest none).2.length = 1 ∧
    (runner (initial_call (make_session_id uuid) q)).countP
        event_has_confirmation = 1 ∧
    check_for_approval (runner (initial_call (make_session_id uuid) q))
        = some { approval_id := fcId, invocation_id := invId } ∧
    entered_pause (run_shipping_workflow runner uuid q d) = true ∧
    (ImageAuto.validate_image_batch prompt images none).1.lookup "status"
        = some (PyVal.str "PENDING") ∧
    (ImageAuto.validate_image_batch prompt images none).2.length = 1 := by
  have hn5 : ¬ count ≤ LARGE_ORDER_THRESHOLD := by
    unfold LARGE_ORDER_THRESHOLD; omega
  have hni : ¬ images ≤ (1 : Int) := by omega
  have hreqs : (place_shipping_order count dest none).2
      = [{ hint := "Large order: " ++ toString count ++ " containers to "
             ++ dest ++ ". Approve?",
           payload := [("num_containers", PyVal.int count),
                       ("destination", PyVal.str dest)] }] := by
    simp [place_shipping_order, hn5]
  have hev : runner (initial_call (make_session_id uuid) q)
      = es1 ++ ((⟨some ⟨"model",
            [⟨none, some ⟨"adk_request_confirmation", fcId⟩, none⟩]⟩,
            invId⟩ : Event) :: es2) := by
    rw [hrun, hreqs]
    simp [tool_request_events, confirmation_event]
  have hchk : check_for_approval (runner (initial_call (make_session_id uuid) q))
      = some { approval_id := fcId, invocation_id := invId } := by
    rw [hev, check_for_approval_append es1 _ h1]
    simp [check_for_approval, scan_parts]
  refine ⟨?_, ?_, ?_, hchk, ?_, ?_, ?_⟩
  · simp [place_shipping_order, hn5, List.lookup]
  · rw [hreqs]; rfl
  · have hz1 : es1.countP event_has_confirmation = 0 :=
      List.countP_eq_zero.mpr (by intro a ha; simp [h1 a ha])
    have hz2 : es2.countP event_has_confirmation = 0 :=
      List.countP_eq_zero.mpr (by intro a ha; simp [h2 a ha])
    rw [hev, List.countP_append, hz1, List.countP_cons_of_pos _ _ (by rfl), hz2]
  · simp [run_shipping_workflow, hchk, entered_pause]
  · simp [ImageAuto.validate_image_batch, hni, List.lookup]
  · simp [ImageAuto.validate_image_batch, hni]

theorem large_order_pauses_witness :
    check_for_approval
        (demo_runner (initial_call (make_session_id demo_uuid) demo_query))
      = some { approval_id := "fc-1", invocation_id := "inv-1" } ∧
    entered_pause (run_shipping_workflow demo_runner demo_uuid demo_query true)
      = true := by
  have h := large_order_pauses 10 3 "Rotterdam" "space" demo_uuid demo_query
    true "inv-1" "fc-1" [] [] demo_runner (by decide) (by decide)
    (by intro e he; cases he) (by intro e he; cases he) (by decide)
  exact ⟨h.2.2.2.1, h.2.2.2.2.1⟩

/-- C3: a resumed gated call (a confirmation is attached; the pause that led
here required the count to exceed the threshold) branches solely on the
decision's confirmed flag: approval yields the approved status with an order
id suffixed HUMAN, denial yields the rejected status with no order id, the two
outcomes are exhaustive, the status is a function of the flag alone (no
re-evaluation of the threshold), and no new confirmation is requested. -/
theorem resumed_call_branches_on_flag
    (count : Int) (dest : String) (conf : ToolConfirmation)
    (hcount : 5 < count) :
    (place_shipping_order count dest (some conf)).1.lookup "status"
        = some (PyVal.str (if conf.confirmed then "approved" else "rejected")) ∧
    (conf.confirmed = true →
        (place_shipping_order count dest (some conf)).1.lookup "order_id"
          = some (PyVal.str ("ORD-" ++ toString count ++ "-HUMAN"))) ∧
    (conf.confirmed = false →
        (place_shipping_order count dest (some conf)).1.lookup "order_id"
          = none) ∧
    ((place_shipping_order count dest (some conf)).1.lookup "status"
          = some (PyVal.str "approved") ∨
     (place_shipping_order count dest (some conf)).1.lookup "status"
          = some (PyVal.str "rejected")) ∧
    (place_shipping_order count dest (some conf)).2 = [] := by
  obtain ⟨c⟩ := conf
  have hn5 : ¬ count ≤ LARGE_ORDER_THRESHOLD := by
    unfold LARGE_ORDER_THRESHOLD; omega
  cases c <;> simp [place_shipping_order, hn5, List.lookup]

theorem resumed_call_branches_on_flag_witness :
    (place_shipping_order 10 "Rotterdam" (some ⟨true⟩)).1.lookup "status"
        = some (PyVal.str "approved") ∧
    (place_shipping_order 10 "Rotterdam" (some ⟨true⟩)).1.lookup "order_id"
        = some (PyVal.str "ORD-10-HUMAN") ∧
    (place_shipping_order 8 "Los Angeles" (some ⟨false⟩)).1.lookup "status"
        = some (PyVal.str "rejected") ∧
    (place_shipping_order 8 "Los Angeles" (some ⟨false⟩)).1.lookup "order_id"
        = none := by
  have ha := resumed_call_branches_on_flag 10 "Rotterdam" ⟨true⟩ (by decide)
  have hr := resumed_call_branches_on_flag 8 "Los Angeles" ⟨false⟩ (by decide)
  exact ⟨by simpa using ha.1, ha.2.1 rfl, by simpa using hr.1, hr.2.2.1 rfl⟩

/-- C5: whenever the initial run pauses, the decision message built for the
resume is keyed by exactly the approval id the scan extracted, names the
reserved operation adk_request_confirmation, and its response dict carries
only the confirmed flag; and the resume call passes that message together with
the invocation id extracted from the same pause, on the same session as the
initial call. -/
theorem resume_preserves_correlation
    (runner : RunnerCall → List Event) (uuid q : String) (d : Bool)
    (info : ApprovalInfo)
    (h : check_for_approval (runner (initial_call (make_session_id uuid) q))
        = some info) :
    (run_shipping_workflow runner uuid q d).calls
      = [initial_call (make_session_id uuid) q,
         resume_call (make_session_id uuid) info d] ∧
    create_approval_response info d
      = ⟨"user", [⟨none, none,
          some ⟨info.approval_id, "adk_request_confirmation",
                [("confirmed", PyVal.bool d)]⟩⟩]⟩ ∧
    (resume_call (make_session_id uuid) info d).new_message
      = create_approval_response info d ∧
    (resume_call (make_session_id uuid) info d).invocation_id
      = some info.invocation_id ∧
    (resume_call (make_session_id uuid) info d).session_id
      = (initial_call (make_session_id uuid) q).session_id := by
  refine ⟨?_, rfl, rfl, rfl, rfl⟩
  simp [run_shipping_workflow, h]

theorem resume_preserves_correlation_witness :
    (run_shipping_workflow demo_runner demo_uuid demo_query true).calls
      = [initial_call (make_session_id demo_uuid) demo_query,
         resume_call (make_session_id demo_uuid) ⟨"fc-1", "inv-1"⟩ true] :=
  (resume_preserves_correlation demo_runner demo_uuid demo_query true
    ⟨"fc-1", "inv-1"⟩ (by decide)).1

theorem string_append_left_cancel (a b c : String) (h : a ++ b = a ++ c) :
    b = c := by
  cases a with | mk as2 =>
  cases b with | mk bs =>
  cases c with | mk cs =>
  have hd : as2 ++ bs = as2 ++ cs := congrArg String.data h
  exact congrArg String.mk (List.append_cancel_left hd)

/-- C6 counterexample: two distinct fresh uuid4 hex draws that agree on their
first 8 hex characters yield the SAME session id, so the code's truncation
uuid.hex[:8] cannot guarantee that every run's session identifier differs from
every other run's. -/
theorem session_id_collision :
    uuid_collision_a ≠ uuid_collision_b ∧
    make_session_id uuid_collision_a = make_session_id uuid_collision_b :=
  ⟨by decide, by decide⟩

/-- C6 (amended): two runs whose fresh uuid hex draws differ within the first
8 characters get distinct session ids (the id construction is injective in
that slice), and every runner call a workflow issues carries its own run's
session id — so runs holding distinct sessions exchange no confirmation
state. -/
theorem distinct_sessions_isolated
    (u1 u2 q1 q2 : String) (d1 d2 : Bool) (runner : RunnerCall → List Event)
    (h : str_take u1 8 ≠ str_take u2 8) :
    make_session_id u1 ≠ make_session_id u2 ∧
    (∀ c ∈ (run_shipping_workflow runner u1 q1 d1).calls,
        c.session_id = make_session_id u1) ∧
    (∀ c ∈ (run_shipping_workflow runner u2 q2 d2).calls,
        c.session_id = make_session_id u2) := by
  refine ⟨?_, ?_, ?_⟩
  · intro he
    exact h (string_append_left_cancel "order_" _ _ he)
  · intro c hc
    cases hchk : check_for_approval (runner (initial_call (make_session_id u1) q1)) with
    | none =>
        simp [run_shipping_workflow, hchk] at hc
        subst hc; rfl
    | some info =>
        simp [run_shipping_workflow, hchk] at hc
        rcases hc with rfl | rfl <;> rfl
  · intro c hc
    cases hchk : check_for_approval (runner (initial_call (make_session_id u2) q2)) with
    | none =>
        simp [run_shipping_workflow, hchk] at hc
        subst hc; rfl
    | some info =>
        simp [run_shipping_workflow, hchk] at hc
        rcases hc with rfl | rfl <;> rfl

theorem distinct_sessions_isolated_witness :
    make_session_id uuid_collision_a ≠ make_session_id uuid_distinct :=
  (distinct_sessions_isolated uuid_collision_a uuid_distinct "q1" "q2"
    true false silent_runner (by decide)).1

/-- C7: when the initial run's events contain no confirmation request, the
controller takes the no-pause branch and reports normal completion with the
(possibly empty) agent texts; absence of a pause is never treated as an
error. -/
theorem no_pause_normal_completion
    (runner : RunnerCall → List Event) (uuid q : String) (d : Bool)
    (h : check_for_approval (runner (initial_call (make_session_id uuid) q))
        = none) :
    (run_shipping_workflow runner uuid q d).outcome
      = Outcome.completedNoPause
          (agent_texts (runner (initial_call (make_session_id uuid) q))) ∧
    entered_pause (run_shipping_workflow runner uuid q d) = false := by
  constructor <;> simp [run_shipping_workflow, h, entered_pause]

theorem no_pause_normal_completion_witness :
    (run_shipping_workflow silent_runner demo_uuid
        "Ship 3 containers to Singapore" true).outcome
      = Outcome.completedNoPause [] := by
  have h := no_pause_normal_completion silent_runner demo_uuid
    "Ship 3 containers to Singapore" true rfl
  simpa [silent_runner, agent_texts] using h.1

end AgenticAI
